import Mathlib

/-!
Shallow embedding of the cluster-configuration resource store
(`lib/services/local/configuration.go`) and the SSH signature-algorithm
shim (`api/utils/signer.go`) of the teleport fragment, together with a
model of the external collaborators (the key-value backend and the
resource codecs) taken from the specification, since their code is not
part of the fragment.
-/

set_option autoImplicit false

namespace Teleport

/-- Backend keys: `backend.Key(parts...)` joins path components; modelled
as the list of components. -/
abbrev Key := List String

/-- Key-path constants from `configuration.go` (lines 278-285). -/
def clusterConfigPrefix : String := "cluster_configuration"

def namePrefix : String := "name"

def staticTokensPrefix : String := "static_tokens"

def authPrefix : String := "authentication"

def preferencePrefix : String := "preference"

def generalPrefix : String := "general"

def clusterNameKey : Key := [clusterConfigPrefix, namePrefix]

def staticTokensKey : Key := [clusterConfigPrefix, staticTokensPrefix]

def authPrefKey : Key := [authPrefix, preferencePrefix, generalPrefix]

def clusterConfigKey : Key := [clusterConfigPrefix, generalPrefix]

/-- Modelled from the spec: `services.ClusterName` (the `services` package
is not part of the fragment) — an immutable identity string for the
cluster, carrying resource metadata (resource ID and expiry, times as
abstract instants, `0` meaning the zero time). -/
structure ClusterName where
  name : String
  resourceID : Nat
  expires : Nat
deriving DecidableEq

/-- Modelled from the spec: one pre-shared provisioning token with roles
and an optional expiry. -/
structure StaticToken where
  token : String
  roles : List String
  tokenExpires : Nat
deriving DecidableEq

/-- Modelled from the spec: `services.StaticTokens` — list of pre-shared
provisioning tokens, with resource metadata. -/
structure StaticTokens where
  tokens : List StaticToken
  resourceID : Nat
  expires : Nat
deriving DecidableEq

/-- Modelled from the spec: `services.AuthPreference` — cluster-wide
authentication policy, with resource metadata. -/
structure AuthPreference where
  authType : String
  secondFactor : String
  resourceID : Nat
  expires : Nat
deriving DecidableEq

/-- Modelled from the spec: `services.ClusterConfig` — general cluster
settings: the session-recording mode plus further fields that a partial
update must leave untouched, with resource metadata. -/
structure ClusterConfig where
  sessionRecording : String
  clusterID : String
  audit : String
  resourceID : Nat
  expires : Nat
deriving DecidableEq

/-- Modelled from the spec: serialized byte payloads are opaque to the
store; each resource codec produces its own payload and the codecs are
injective, so payloads are modelled as a sum over the resource kinds. -/
inductive RawValue where
  | clusterNameV (c : ClusterName)
  | staticTokensV (t : StaticTokens)
  | authPreferenceV (p : AuthPreference)
  | clusterConfigV (c : ClusterConfig)
deriving DecidableEq

/-- Error taxonomy of the `trace` package as used by the store:
`NotFound`, `AlreadyExists`, `CompareFailed` (concurrent modification),
`BadParameter` (domain validation), and an opaque category. -/
inductive Err where
  | notFound (msg : String)
  | alreadyExists (msg : String)
  | compareFailed (msg : String)
  | badParameter (msg : String)
  | other (msg : String)
deriving DecidableEq

/-- `trace.IsNotFound`. -/
def Err.isNotFound : Err → Bool
  | .notFound _ => true
  | _ => false

/-- `trace.IsCompareFailed`. -/
def Err.isCompareFailed : Err → Bool
  | .compareFailed _ => true
  | _ => false

/-- `trace.IsAlreadyExists`. -/
def Err.isAlreadyExists : Err → Bool
  | .alreadyExists _ => true
  | _ => false

/-- `trace.Wrap` annotates an error with a stack trace while preserving
its class; on the abstract error domain it is the identity. -/
def wrap (e : Err) : Err := e

/-- `backend.Item` (fields `Key`, `Value`, `Expires`, `ID`). -/
structure Item where
  key : Key
  value : RawValue
  expires : Nat
  id : Nat
deriving DecidableEq

/-- Modelled from the spec: backend state — records stored under fixed
key paths (an association list) plus the monotone counter from which
the backend assigns fresh revision identifiers. -/
structure Backend where
  items : List (Key × Item)
  nextId : Nat
deriving DecidableEq

def lookupKey : List (Key × Item) → Key → Option Item
  | [], _ => none
  | (k', it) :: rest, k => if k' = k then some it else lookupKey rest k

def insertKey : List (Key × Item) → Key → Item → List (Key × Item)
  | [], k, it => [(k, it)]
  | (k', it') :: rest, k, it =>
      if k' = k then (k, it) :: rest else (k', it') :: insertKey rest k it

def removeKey : List (Key × Item) → Key → List (Key × Item)
  | [], _ => []
  | (k', it') :: rest, k =>
      if k' = k then removeKey rest k else (k', it') :: removeKey rest k

/-- Modelled from the spec: `Get(key) -> (value, revision, expiry) | NotFound`
— the backend `Get` primitive (`lib/backend` is not part of the
fragment). -/
def Backend.get (b : Backend) (k : Key) : Except Err Item :=
  match lookupKey b.items k with
  | some it => .ok { it with key := k }
  | none => .error (.notFound "key is not found")

/-- Modelled from the spec: `Create(key, value, expiry) -> revision |
AlreadyExists` — atomic create-if-absent; the backend assigns a fresh
revision identifier to the stored record. -/
def Backend.create (b : Backend) (it : Item) : Backend × Except Err Nat :=
  match lookupKey b.items it.key with
  | some _ => (b, .error (.alreadyExists "already exists"))
  | none =>
      (⟨insertKey b.items it.key { it with id := b.nextId }, b.nextId + 1⟩,
       .ok b.nextId)

/-- Modelled from the spec: `Put(key, value, expiry, optionalPriorRevision)
-> revision` — unconditional create-or-overwrite; the stored record gets
a fresh backend-assigned revision identifier (the prior revision in the
item is provenance only, not used for conflict detection). -/
def Backend.put (b : Backend) (it : Item) : Backend × Nat :=
  (⟨insertKey b.items it.key { it with id := b.nextId }, b.nextId + 1⟩,
   b.nextId)

/-- Modelled from the spec: `CompareAndSwap(key, expectedRevision,
newValue, newExpiry) -> newRevision | ConcurrentModification` — the write
applies only if the record at the key still carries the expected
revision. -/
def Backend.compareAndSwap (b : Backend) (expected repl : Item) :
    Backend × Except Err Nat :=
  match lookupKey b.items expected.key with
  | none => (b, .error (.compareFailed "key is not found"))
  | some cur =>
      if cur.id = expected.id then
        (⟨insertKey b.items expected.key { repl with id := b.nextId },
          b.nextId + 1⟩,
         .ok b.nextId)
      else (b, .error (.compareFailed "current value does not match expected"))

/-- Modelled from the spec: `Delete(key) -> () | NotFound`. -/
def Backend.delete (b : Backend) (k : Key) : Backend × Except Err Unit :=
  match lookupKey b.items k with
  | none => (b, .error (.notFound "key is not found"))
  | some _ => (⟨removeKey b.items k, b.nextId⟩, .ok ())

/-- Modelled from the spec: the variadic marshal options
(`services.MarshalOption`) as an explicit record of optional fields
`resourceID` and `expires`. -/
inductive MarshalOption where
  | withResourceID (i : Nat)
  | withExpires (t : Nat)
deriving DecidableEq

structure MarshalCfg where
  resourceID : Option Nat := none
  expires : Option Nat := none
deriving DecidableEq

def applyOption (cfg : MarshalCfg) : MarshalOption → MarshalCfg
  | .withResourceID i => { cfg with resourceID := some i }
  | .withExpires t => { cfg with expires := some t }

def collectOptions (opts : List MarshalOption) : MarshalCfg :=
  opts.foldl applyOption {}

/-- `services.AddOptions(opts, extra...)` appends the extra options after
the caller-supplied ones, so the later ones take precedence. -/
def addOptions (opts extra : List MarshalOption) : List MarshalOption :=
  opts ++ extra

/-- Modelled from the spec: `Marshal(value) -> bytes` for ClusterName. -/
def marshalClusterName (c : ClusterName) : RawValue := .clusterNameV c

/-- Modelled from the spec: `Unmarshal(bytes, revision, expiry) -> value`
for ClusterName — decodes the payload and attaches the resource ID and
expiry supplied through the options into the returned value. -/
def unmarshalClusterName (v : RawValue) (opts : List MarshalOption) :
    Except Err ClusterName :=
  match v with
  | .clusterNameV c =>
      let cfg := collectOptions opts
      .ok { c with
              resourceID := cfg.resourceID.getD c.resourceID,
              expires := cfg.expires.getD c.expires }
  | _ => .error (.badParameter "invalid cluster name payload")

/-- Modelled from the spec: `Marshal` for StaticTokens. -/
def marshalStaticTokens (t : StaticTokens) : RawValue := .staticTokensV t

/-- Modelled from the spec: `Unmarshal` for StaticTokens. -/
def unmarshalStaticTokens (v : RawValue) (opts : List MarshalOption) :
    Except Err StaticTokens :=
  match v with
  | .staticTokensV t =>
      let cfg := collectOptions opts
      .ok { t with
              resourceID := cfg.resourceID.getD t.resourceID,
              expires := cfg.expires.getD t.expires }
  | _ => .error (.badParameter "invalid static tokens payload")

/-- Modelled from the spec: `Marshal` for AuthPreference. -/
def marshalAuthPreference (p : AuthPreference) : RawValue := .authPreferenceV p

/-- Modelled from the spec: `Unmarshal` for AuthPreference. -/
def unmarshalAuthPreference (v : RawValue) (opts : List MarshalOption) :
    Except Err AuthPreference :=
  match v with
  | .authPreferenceV p =>
      let cfg := collectOptions opts
      .ok { p with
              resourceID := cfg.resourceID.getD p.resourceID,
              expires := cfg.expires.getD p.expires }
  | _ => .error (.badParameter "invalid auth preference payload")

/-- Modelled from the spec: `Marshal` for ClusterConfig. -/
def marshalClusterConfig (c : ClusterConfig) : RawValue := .clusterConfigV c

/-- Modelled from the spec: `Unmarshal` for ClusterConfig. -/
def unmarshalClusterConfig (v : RawValue) (opts : List MarshalOption) :
    Except Err ClusterConfig :=
  match v with
  | .clusterConfigV c =>
      let cfg := collectOptions opts
      .ok { c with
              resourceID := cfg.resourceID.getD c.resourceID,
              expires := cfg.expires.getD c.expires }
  | _ => .error (.badParameter "invalid cluster config payload")

/-- Modelled from the spec: `services.ClusterConfig.CheckAndSetDefaults`
(the `services` package is not part of the fragment) — domain validation
of the proposed value: an empty session-recording mode defaults to
recording at the node, and a mode outside the known set is rejected with
a `BadParameter`-class error before any backend interaction. -/
def ClusterConfig.checkAndSetDefaults (c : ClusterConfig) :
    Except Err ClusterConfig :=
  let mode := if c.sessionRecording = "" then "node" else c.sessionRecording
  if mode = "node" ∨ mode = "proxy" ∨ mode = "off" then
    .ok { c with sessionRecording := mode }
  else
    .error (.badParameter "unrecognized session recording mode")

/-- `GetClusterName` (configuration.go lines 41-51): fetch the record at
`cluster_configuration/name`, translate the backend not-found condition,
and unmarshal attaching the backend resource ID after the caller's
options. -/
def GetClusterName (b : Backend) (opts : List MarshalOption) :
    Except Err ClusterName :=
  match b.get clusterNameKey with
  | .error e =>
      if e.isNotFound then .error (.notFound "cluster name not found")
      else .error (wrap e)
  | .ok item =>
      unmarshalClusterName item.value
        (addOptions opts [.withResourceID item.id])

/-- `DeleteClusterName` (configuration.go lines 54-63). -/
def DeleteClusterName (b : Backend) : Backend × Except Err Unit :=
  let (b', r) := b.delete clusterNameKey
  match r with
  | .error e =>
      if e.isNotFound then
        (b', .error (.notFound "cluster configuration not found"))
      else (b', .error (wrap e))
  | .ok _ => (b', .ok ())

/-- `SetClusterName` (configuration.go lines 67-83): marshal and issue an
atomic backend `Create`; any error, the `AlreadyExists` from the create
primitive included, is wrapped and surfaced. -/
def SetClusterName (b : Backend) (c : ClusterName) : Backend × Except Err Unit :=
  let value := marshalClusterName c
  let (b', r) := b.create
    { key := clusterNameKey, value := value, expires := c.expires, id := 0 }
  match r with
  | .error e => (b', .error (wrap e))
  | .ok _ => (b', .ok ())

/-- `UpsertClusterName` (configuration.go lines 86-103): marshal and issue
an unconditional backend `Put` carrying the value's expiry and resource
ID. -/
def UpsertClusterName (b : Backend) (c : ClusterName) :
    Backend × Except Err Unit :=
  let value := marshalClusterName c
  let (b', _) := b.put
    { key := clusterNameKey, value := value, expires := c.expires,
      id := c.resourceID }
  (b', .ok ())

/-- `GetStaticTokens` (configuration.go lines 106-116): unmarshal attaches
the backend resource ID and expiry. -/
def GetStaticTokens (b : Backend) : Except Err StaticTokens :=
  match b.get staticTokensKey with
  | .error e =>
      if e.isNotFound then .error (.notFound "static tokens not found")
      else .error (wrap e)
  | .ok item =>
      unmarshalStaticTokens item.value
        [.withResourceID item.id, .withExpires item.expires]

/-- `SetStaticTokens` (configuration.go lines 119-135): unconditional
`Put` carrying the value's expiry and resource ID. -/
def SetStaticTokens (b : Backend) (t : StaticTokens) :
    Backend × Except Err Unit :=
  let value := marshalStaticTokens t
  let (b', _) := b.put
    { key := staticTokensKey, value := value, expires := t.expires,
      id := t.resourceID }
  (b', .ok ())

/-- `DeleteStaticTokens` (configuration.go lines 138-147). -/
def DeleteStaticTokens (b : Backend) : Backend × Except Err Unit :=
  let (b', r) := b.delete staticTokensKey
  match r with
  | .error e =>
      if e.isNotFound then
        (b', .error (.notFound "static tokens are not found"))
      else (b', .error (wrap e))
  | .ok _ => (b', .ok ())

/-- `GetAuthPreference` (configuration.go lines 151-161). -/
def GetAuthPreference (b : Backend) : Except Err AuthPreference :=
  match b.get authPrefKey with
  | .error e =>
      if e.isNotFound then
        .error (.notFound "authentication preference not found")
      else .error (wrap e)
  | .ok item =>
      unmarshalAuthPreference item.value
        [.withResourceID item.id, .withExpires item.expires]

/-- `SetAuthPreference` (configuration.go lines 165-183): the item passed
to `Put` carries the value's resource ID but no expiry (the `Expires`
field is left at its zero value). -/
def SetAuthPreference (b : Backend) (p : AuthPreference) :
    Backend × Except Err Unit :=
  let value := marshalAuthPreference p
  let item : Item :=
    { key := authPrefKey, value := value, expires := 0, id := p.resourceID }
  let (b', _) := b.put item
  (b', .ok ())

/-- `getClusterConfig` (configuration.go lines 223-243): returns the raw
backend item together with the unmarshaled config, attaching the backend
resource ID and expiry after the caller's options. -/
def getClusterConfig (b : Backend) (opts : List MarshalOption) :
    Except Err (Item × ClusterConfig) :=
  match b.get clusterConfigKey with
  | .error e =>
      if e.isNotFound then
        .error (.notFound "cluster configuration not found")
      else .error (wrap e)
  | .ok item =>
      match unmarshalClusterConfig item.value
          (addOptions opts
            [.withResourceID item.id, .withExpires item.expires]) with
      | .error e => .error (wrap e)
      | .ok cc => .ok (item, cc)

/-- `GetClusterConfig` (configuration.go lines 186-189): delegates to
`getClusterConfig` without forwarding the caller-supplied options. -/
def GetClusterConfig (b : Backend) (opts : List MarshalOption) :
    Except Err ClusterConfig :=
  match getClusterConfig b [] with
  | .error e => .error (wrap e)
  | .ok (_, rc) => .ok rc

/-- Read-and-prepare phase of `UpdateClusterConfig` (configuration.go
lines 193-210): validate the proposed value, read the current record and
its revision, merge only the session-recording field into the
freshly-read config, and build the replacement item. -/
def updateClusterConfigPrepare (b : Backend) (cc : ClusterConfig) :
    Except Err (Item × Item) :=
  match cc.checkAndSetDefaults with
  | .error e => .error (wrap e)
  | .ok cc' =>
      match getClusterConfig b [] with
      | .error e => .error (wrap e)
      | .ok (existingItem, current) =>
          let update := { current with sessionRecording := cc'.sessionRecording }
          let updateValue := marshalClusterConfig update
          let updateItem : Item :=
            { key := clusterConfigKey, value := updateValue,
              expires := update.expires, id := 0 }
          .ok (existingItem, updateItem)

/-- Compare-and-swap phase of `UpdateClusterConfig` (configuration.go
lines 212-219): a compare-failed condition from the backend is translated
into the distinct try-again error; no internal retry. -/
def updateClusterConfigSwap (b : Backend) (existingItem updateItem : Item) :
    Backend × Except Err Unit :=
  let (b', r) := b.compareAndSwap existingItem updateItem
  match r with
  | .error e =>
      if e.isCompareFailed then
        (b',
         .error (.compareFailed
           "cluster configuration has been updated by another client, try again"))
      else (b', .error (wrap e))
  | .ok _ => (b', .ok ())

/-- `UpdateClusterConfig` (configuration.go lines 192-220): the prepare
phase followed by the compare-and-swap phase against the same backend
state (the sequential execution; a concurrent writer is modelled by
running the two phases against different states). -/
def UpdateClusterConfig (b : Backend) (cc : ClusterConfig) :
    Backend × Except Err Unit :=
  match updateClusterConfigPrepare b cc with
  | .error e => (b, .error e)
  | .ok (existingItem, updateItem) =>
      updateClusterConfigSwap b existingItem updateItem

/-- `DeleteClusterConfig` (configuration.go lines 246-255). -/
def DeleteClusterConfig (b : Backend) : Backend × Except Err Unit :=
  let (b', r) := b.delete clusterConfigKey
  match r with
  | .error e =>
      if e.isNotFound then
        (b', .error (.notFound "cluster configuration not found"))
      else (b', .error (wrap e))
  | .ok _ => (b', .ok ())

/-- `SetClusterConfig` (configuration.go lines 258-276): the item passed
to `Put` carries the value's resource ID but no expiry (the `Expires`
field is left at its zero value). -/
def SetClusterConfig (b : Backend) (c : ClusterConfig) :
    Backend × Except Err Unit :=
  let value := marshalClusterConfig c
  let item : Item :=
    { key := clusterConfigKey, value := value, expires := 0,
      id := c.resourceID }
  let (b', _) := b.put item
  (b', .ok ())

/-- An SSH signature (`ssh.Signature`), with an abstract blob. -/
structure Signature where
  format : String
  blob : List Nat
deriving DecidableEq

/-- `ssh.KeyAlgoRSA`. -/
def keyAlgoRSA : String := "ssh-rsa"

/-- `ssh.CertAlgoRSAv01`. -/
def certAlgoRSAv01 : String := "ssh-rsa-cert-v01@openssh.com"

/-- An `ssh.Signer` value as `AlgSigner` (`api/utils/signer.go`) sees it:
a plain signer that does not implement `ssh.AlgorithmSigner`, an
algorithm signer with a `SignWithAlgorithm` method, or the
`fixedAlgorithmSigner` wrapper from `signer.go` around an underlying
signer. Randomness sources and message data are abstract. -/
inductive SSHSigner where
  | basic (pub : String) (sign : Nat → List Nat → Except String Signature)
  | algo (pub : String) (sign : Nat → List Nat → Except String Signature)
      (signWith : Nat → List Nat → String → Except String Signature)
  | fixedAlgo (base : SSHSigner) (alg : String)

/-- `s.PublicKey().Type()`; the wrapper promotes the embedded signer's
public key. -/
def pubKeyType : SSHSigner → String
  | .basic pub _ => pub
  | .algo pub _ _ => pub
  | .fixedAlgo base _ => pubKeyType base

/-- The type assertion `s.(ssh.AlgorithmSigner)`: plain signers lack the
method set; algorithm signers and the `fixedAlgorithmSigner` wrapper have
it. -/
def isAlgorithmSigner : SSHSigner → Bool
  | .basic _ _ => false
  | .algo _ _ _ => true
  | .fixedAlgo _ _ => true

/-- The `SignWithAlgorithm` method when the signer has one: the wrapper's
method (signer.go lines 59-64) substitutes its fixed algorithm for an
empty caller-supplied one and delegates to the embedded signer. -/
def signWith? : SSHSigner →
    Option (Nat → List Nat → String → Except String Signature)
  | .basic _ _ => none
  | .algo _ _ g => some g
  | .fixedAlgo base fixed =>
      (signWith? base).map fun g =>
        fun r d a => g r d (if a = "" then fixed else a)

/-- `SignWithAlgorithm` as a total function; the fallback stands for the
nil-interface panic that no value built by this code can reach. -/
def signWithAlgorithm (s : SSHSigner) (r : Nat) (d : List Nat)
    (alg : String) : Except String Signature :=
  match signWith? s with
  | some g => g r d alg
  | none => .error "signer does not implement AlgorithmSigner"

/-- `s.Sign(rand, data)`: the wrapper's method (signer.go lines 66-68)
delegates to the embedded signer's `SignWithAlgorithm` with the fixed
algorithm. -/
def signerSign : SSHSigner → Nat → List Nat → Except String Signature
  | .basic _ f, r, d => f r d
  | .algo _ f _, r, d => f r d
  | .fixedAlgo base fixed, r, d =>
      match signWith? base with
      | some g => g r d fixed
      | none => .error "signer does not implement AlgorithmSigner"

/-- `AlgSigner` (signer.go lines 37-52): returns the signer unchanged when
the algorithm is empty, when the public-key type is neither the RSA key
algorithm nor the RSA certificate algorithm, or when the signer is not an
`ssh.AlgorithmSigner`; otherwise wraps it in a `fixedAlgorithmSigner`. -/
def AlgSigner (s : SSHSigner) (alg : String) : SSHSigner :=
  if alg = "" then s
  else if pubKeyType s ≠ keyAlgoRSA ∧ pubKeyType s ≠ certAlgoRSAv01 then s
  else if isAlgorithmSigner s then .fixedAlgo s alg else s

/-- Atomicity of one store operation taking state `b` to state `post`
with result `r` at its single key `k0`: a failed operation leaves the
state exactly as it was, and in every case no key other than the
operation's own is touched. -/
def atomicAt (b post : Backend) (r : Except Err Unit) (k0 : Key) : Prop :=
  ((∃ e, r = .error e) → post = b) ∧
  ∀ k, k ≠ k0 → lookupKey post.items k = lookupKey b.items k

/-- Fixture: the empty backend. -/
def bEmpty : Backend := { items := [], nextId := 0 }

/-- Fixture cluster names. -/
def cnEx : ClusterName := { name := "prod", resourceID := 0, expires := 0 }

def cnEx2 : ClusterName := { name := "staging", resourceID := 1, expires := 7 }

/-- Fixture: backend after the cluster name has been set once. -/
def bOne : Backend := (SetClusterName bEmpty cnEx).1

/-- Fixture static tokens. -/
def stEx : StaticTokens :=
  { tokens := [{ token := "tok", roles := ["node"], tokenExpires := 3 }],
    resourceID := 2, expires := 4 }

/-- Fixture auth preference with a nonzero declared expiry. -/
def apEx : AuthPreference :=
  { authType := "local", secondFactor := "otp", resourceID := 3, expires := 5 }

/-- Fixture cluster config proposing the proxy recording mode. -/
def ccEx : ClusterConfig :=
  { sessionRecording := "proxy", clusterID := "cid", audit := "a",
    resourceID := 0, expires := 0 }

/-- Fixture cluster config with an unrecognized recording mode. -/
def ccBad : ClusterConfig :=
  { sessionRecording := "bogus", clusterID := "cid", audit := "a",
    resourceID := 0, expires := 0 }

/-- Fixture: the stored cluster config payload; its embedded resource ID
(0) differs from the backend record's revision (5), as happens after any
unconditional put. -/
def ccStored : ClusterConfig :=
  { sessionRecording := "node", clusterID := "cid", audit := "a",
    resourceID := 0, expires := 0 }

/-- Fixture: the backend record holding `ccStored` at revision 5. -/
def itemStored : Item :=
  { key := clusterConfigKey, value := .clusterConfigV ccStored,
    expires := 0, id := 5 }

/-- Fixture backend holding the cluster config record. -/
def bCfg : Backend := { items := [(clusterConfigKey, itemStored)], nextId := 6 }

/-- Fixture: a concurrent writer's replacement item. -/
def itemConc : Item :=
  { key := clusterConfigKey, value := .clusterConfigV ccEx,
    expires := 0, id := 0 }

/-- Fixture: the replacement item `updateClusterConfigPrepare` builds
from `bCfg` and `ccEx`. -/
def upConc : Item :=
  { key := clusterConfigKey,
    value := .clusterConfigV
      { sessionRecording := "proxy", clusterID := "cid", audit := "a",
        resourceID := 5, expires := 0 },
    expires := 0, id := 0 }

/-- Fixture signature and signing functions. -/
def sigEx : Signature := { format := "rsa-sha2-512", blob := [1] }

def signEx : Nat → List Nat → Except String Signature := fun _ _ => .ok sigEx

def signWithEx : Nat → List Nat → String → Except String Signature :=
  fun _ _ a => .ok { format := a, blob := [] }

/-- Fixture: an RSA algorithm signer. -/
def sAlgoEx : SSHSigner := .algo keyAlgoRSA signEx signWithEx

/-- Fixture: an ed25519 plain signer. -/
def sBasicEx : SSHSigner := .basic "ssh-ed25519" signEx

theorem lookup_insert_self (l : List (Key × Item)) (k : Key) (it : Item) :
    lookupKey (insertKey l k it) k = some it := by
  induction l with
  | nil => simp [insertKey, lookupKey]
  | cons hd tl ih =>
      obtain ⟨k0, it0⟩ := hd
      by_cases h : k0 = k
      · simp [insertKey, lookupKey, h]
      · simp [insertKey, lookupKey, h, ih]

theorem lookup_insert_ne (l : List (Key × Item)) (k k' : Key) (it : Item)
    (h : k' ≠ k) :
    lookupKey (insertKey l k it) k' = lookupKey l k' := by
  have hne : k ≠ k' := Ne.symm h
  induction l with
  | nil => simp [insertKey, lookupKey, hne]
  | cons hd tl ih =>
      obtain ⟨k0, it0⟩ := hd
      by_cases h0 : k0 = k
      · subst h0
        simp [insertKey, lookupKey, hne]
      · by_cases h1 : k0 = k'
        · simp [insertKey, lookupKey, h0, h1, h]
        · simp [insertKey, lookupKey, h0, h1, ih]

theorem lookup_remove_ne (l : List (Key × Item)) (k k' : Key) (h : k' ≠ k) :
    lookupKey (removeKey l k) k' = lookupKey l k' := by
  have hne : k ≠ k' := Ne.symm h
  induction l with
  | nil => simp [removeKey]
  | cons hd tl ih =>
      obtain ⟨k0, it0⟩ := hd
      by_cases h0 : k0 = k
      · subst h0
        simp [removeKey, lookupKey, hne, ih]
      · by_cases h1 : k0 = k'
        · simp [removeKey, lookupKey, h0, h1, h]
        · simp [removeKey, lookupKey, h0, h1, ih]

theorem setClusterName_absent (b : Backend) (c : ClusterName)
    (h : lookupKey b.items clusterNameKey = none) :
    SetClusterName b c =
      (⟨insertKey b.items clusterNameKey
          { key := clusterNameKey, value := marshalClusterName c,
            expires := c.expires, id := b.nextId },
        b.nextId + 1⟩,
       .ok ()) := by
  simp [SetClusterName, Backend.create, h]

theorem setClusterName_present (b : Backend) (c : ClusterName) (it : Item)
    (h : lookupKey b.items clusterNameKey = some it) :
    SetClusterName b c = (b, .error (.alreadyExists "already exists")) := by
  simp [SetClusterName, Backend.create, wrap, h]

/-- C1: for the ClusterName resource, when no record exists at its key,
`SetClusterName` succeeds and stores the marshaled value (at a fresh
backend revision); every subsequent `SetClusterName` call, with any
value, fails with an `AlreadyExists` error and leaves the backend state
from the first call — in particular the stored record — unchanged. -/
theorem setClusterName_create_once (b : Backend) (c : ClusterName)
    (h : lookupKey b.items clusterNameKey = none) :
    (SetClusterName b c).2 = .ok () ∧
    lookupKey (SetClusterName b c).1.items clusterNameKey =
      some { key := clusterNameKey, value := marshalClusterName c,
             expires := c.expires, id := b.nextId } ∧
    (∀ c₂ : ClusterName, ∃ m,
      (SetClusterName (SetClusterName b c).1 c₂).2 =
        .error (.alreadyExists m)) ∧
    (∀ cs : List ClusterName,
      cs.foldl (fun st c₂ => (SetClusterName st c₂).1) (SetClusterName b c).1
        = (SetClusterName b c).1) := by
  rw [setClusterName_absent b c h]
  have hlook : lookupKey
      (Backend.mk
        (insertKey b.items clusterNameKey
          { key := clusterNameKey, value := marshalClusterName c,
            expires := c.expires, id := b.nextId })
        (b.nextId + 1)).items clusterNameKey =
      some { key := clusterNameKey, value := marshalClusterName c,
             expires := c.expires, id := b.nextId } :=
    lookup_insert_self _ _ _
  refine ⟨rfl, hlook, ?_, ?_⟩
  · intro c₂
    exact ⟨"already exists", by rw [setClusterName_present _ c₂ _ hlook]⟩
  · intro cs
    induction cs with
    | nil => rfl
    | cons c₂ cs ih =>
        have hstep := setClusterName_present _ c₂ _ hlook
        simpa [hstep] using ih

/-- Closed instance of C1 at the empty backend and a concrete name. -/
theorem setClusterName_create_once_witness :
    lookupKey bEmpty.items clusterNameKey = none ∧
    (SetClusterName bEmpty cnEx).2 = .ok () :=
  ⟨rfl, (setClusterName_create_once bEmpty cnEx rfl).1⟩

/-- C4: when domain validation of the proposed ClusterConfig fails,
`UpdateClusterConfig` returns exactly the validation error and the
backend state is returned unchanged; the outcome does not depend on the
backend state at all (no read, no write). -/
theorem updateClusterConfig_validation_aborts (b : Backend)
    (cc : ClusterConfig) (e : Err)
    (h : cc.checkAndSetDefaults = .error e) :
    UpdateClusterConfig b cc = (b, .error e) := by
  simp [UpdateClusterConfig, updateClusterConfigPrepare, wrap, h]

/-- Closed instance of C4 at a concrete invalid config. -/
theorem updateClusterConfig_validation_aborts_witness :
    ccBad.checkAndSetDefaults =
      .error (.badParameter "unrecognized session recording mode") ∧
    UpdateClusterConfig bCfg ccBad =
      (bCfg, .error (.badParameter "unrecognized session recording mode")) :=
  ⟨rfl, updateClusterConfig_validation_aborts bCfg ccBad _ rfl⟩

/-- C5: for every resource kind, an Upsert/Set of a value followed by the
corresponding Get returns the value written, round-tripped through the
codec, with the resource ID and expiry of the just-written backend
record attached: the record carries a fresh backend revision, and its
expiry is the value's declared expiry for ClusterName and StaticTokens
and the zero expiry the Set wrote for AuthPreference and ClusterConfig. -/
theorem upsert_get_roundtrip (b : Backend) (c : ClusterName)
    (t : StaticTokens) (p : AuthPreference) (g : ClusterConfig) :
    (lookupKey (UpsertClusterName b c).1.items clusterNameKey =
       some { key := clusterNameKey, value := marshalClusterName c,
              expires := c.expires, id := b.nextId } ∧
     GetClusterName (UpsertClusterName b c).1 [] =
       .ok { c with resourceID := b.nextId }) ∧
    (lookupKey (SetStaticTokens b t).1.items staticTokensKey =
       some { key := staticTokensKey, value := marshalStaticTokens t,
              expires := t.expires, id := b.nextId } ∧
     GetStaticTokens (SetStaticTokens b t).1 =
       .ok { t with resourceID := b.nextId }) ∧
    (lookupKey (SetAuthPreference b p).1.items authPrefKey =
       some { key := authPrefKey, value := marshalAuthPreference p,
              expires := 0, id := b.nextId } ∧
     GetAuthPreference (SetAuthPreference b p).1 =
       .ok { p with resourceID := b.nextId, expires := 0 }) ∧
    (lookupKey (SetClusterConfig b g).1.items clusterConfigKey =
       some { key := clusterConfigKey, value := marshalClusterConfig g,
              expires := 0, id := b.nextId } ∧
     GetClusterConfig (SetClusterConfig b g).1 [] =
       .ok { g with resourceID := b.nextId, expires := 0 }) := by
  have h1 : lookupKey (UpsertClusterName b c).1.items clusterNameKey =
      some { key := clusterNameKey, value := marshalClusterName c,
             expires := c.expires, id := b.nextId } :=
    lookup_insert_self _ _ _
  have h2 : lookupKey (SetStaticTokens b t).1.items staticTokensKey =
      some { key := staticTokensKey, value := marshalStaticTokens t,
             expires := t.expires, id := b.nextId } :=
    lookup_insert_self _ _ _
  have h3 : lookupKey (SetAuthPreference b p).1.items authPrefKey =
      some { key := authPrefKey, value := marshalAuthPreference p,
             expires := 0, id := b.nextId } :=
    lookup_insert_self _ _ _
  have h4 : lookupKey (SetClusterConfig b g).1.items clusterConfigKey =
      some { key := clusterConfigKey, value := marshalClusterConfig g,
             expires := 0, id := b.nextId } :=
    lookup_insert_self _ _ _
  refine ⟨⟨h1, ?_⟩, ⟨h2, ?_⟩, ⟨h3, ?_⟩, ⟨h4, ?_⟩⟩
  · simp [GetClusterName, Backend.get, h1, marshalClusterName,
      unmarshalClusterName, addOptions, collectOptions, applyOption]
  · simp [GetStaticTokens, Backend.get, h2, marshalStaticTokens,
      unmarshalStaticTokens, collectOptions, applyOption]
  · simp [GetAuthPreference, Backend.get, h3, marshalAuthPreference,
      unmarshalAuthPreference, collectOptions, applyOption]
  · simp [GetClusterConfig, getClusterConfig, Backend.get, h4, wrap,
      marshalClusterConfig, unmarshalClusterConfig, addOptions,
      collectOptions, applyOption]

/-- C6 (amended): each unconditional Upsert/Set passes the value's
resource ID through in the item handed to the backend `Put`;
`UpsertClusterName` and `SetStaticTokens` also pass the value's declared
expiry, while `SetAuthPreference` and `SetClusterConfig` hand the backend
an item with the zero expiry instead. -/
theorem put_item_passthrough (b : Backend) (c : ClusterName)
    (t : StaticTokens) (p : AuthPreference) (g : ClusterConfig) :
    UpsertClusterName b c =
      ((b.put { key := clusterNameKey, value := marshalClusterName c,
                expires := c.expires, id := c.resourceID }).1, .ok ()) ∧
    SetStaticTokens b t =
      ((b.put { key := staticTokensKey, value := marshalStaticTokens t,
                expires := t.expires, id := t.resourceID }).1, .ok ()) ∧
    SetAuthPreference b p =
      ((b.put { key := authPrefKey, value := marshalAuthPreference p,
                expires := 0, id := p.resourceID }).1, .ok ()) ∧
    SetClusterConfig b g =
      ((b.put { key := clusterConfigKey, value := marshalClusterConfig g,
                expires := 0, id := g.resourceID }).1, .ok ()) :=
  ⟨rfl, rfl, rfl, rfl⟩

/-- C6 counterexample: `SetAuthPreference` of a value whose declared
expiry is 5 stores a backend record with expiry 0, so the Set does not
write the value's declared expiry into the backend `Put`. -/
theorem setAuthPreference_drops_expiry :
    apEx.expires = 5 ∧
    lookupKey (SetAuthPreference bEmpty apEx).1.items authPrefKey =
      some { key := authPrefKey, value := marshalAuthPreference apEx,
             expires := 0, id := 0 } ∧
    (lookupKey (SetAuthPreference bEmpty apEx).1.items authPrefKey).map
        Item.expires ≠ some apEx.expires :=
  ⟨rfl, rfl, by decide⟩

theorem getClusterConfig_ok (b : Backend) (it : Item) (cur : ClusterConfig)
    (hit : lookupKey b.items clusterConfigKey = some it)
    (hval : it.value = .clusterConfigV cur) :
    getClusterConfig b [] =
      .ok ({ it with key := clusterConfigKey },
           { cur with resourceID := it.id, expires := it.expires }) := by
  simp [getClusterConfig, Backend.get, hit, hval, unmarshalClusterConfig,
    addOptions, collectOptions, applyOption]

theorem updateClusterConfigPrepare_ok (b : Backend) (cc cc' cur : ClusterConfig)
    (it : Item)
    (hit : lookupKey b.items clusterConfigKey = some it)
    (hval : it.value = .clusterConfigV cur)
    (hchk : cc.checkAndSetDefaults = .ok cc') :
    updateClusterConfigPrepare b cc =
      .ok ({ it with key := clusterConfigKey },
           { key := clusterConfigKey,
             value := marshalClusterConfig
               { cur with
                   sessionRecording := cc'.sessionRecording,
                   resourceID := it.id, expires := it.expires },
             expires := it.expires, id := 0 }) := by
  simp [updateClusterConfigPrepare, hchk, getClusterConfig_ok b it cur hit hval]

/-- C2 (amended): a successful `UpdateClusterConfig` stores a payload in
which the session-recording field comes from the caller's validated
value and every other field comes from the freshly-read current record
as `Get` returns it: the domain fields (`clusterID`, `audit`) are
preserved from the stored payload, while the payload's resource-ID and
expiry metadata are rewritten to the revision and expiry that the read
attached from the backend record. -/
theorem updateClusterConfig_merges_into_current (b : Backend)
    (cc cc' cur : ClusterConfig) (it : Item)
    (hit : lookupKey b.items clusterConfigKey = some it)
    (hval : it.value = .clusterConfigV cur)
    (hchk : cc.checkAndSetDefaults = .ok cc') :
    (UpdateClusterConfig b cc).2 = .ok () ∧
    lookupKey (UpdateClusterConfig b cc).1.items clusterConfigKey =
      some { key := clusterConfigKey,
             value := .clusterConfigV
               { cur with
                   sessionRecording := cc'.sessionRecording,
                   resourceID := it.id, expires := it.expires },
             expires := it.expires, id := b.nextId } := by
  have hprep := updateClusterConfigPrepare_ok b cc cc' cur it hit hval hchk
  have hswap : updateClusterConfigSwap b { it with key := clusterConfigKey }
      { key := clusterConfigKey,
        value := marshalClusterConfig
          { cur with
              sessionRecording := cc'.sessionRecording,
              resourceID := it.id, expires := it.expires },
        expires := it.expires, id := 0 } =
      (⟨insertKey b.items clusterConfigKey
          { key := clusterConfigKey,
            value := marshalClusterConfig
              { cur with
                  sessionRecording := cc'.sessionRecording,
                  resourceID := it.id, expires := it.expires },
            expires := it.expires, id := b.nextId },
        b.nextId + 1⟩, .ok ()) := by
    simp [updateClusterConfigSwap, Backend.compareAndSwap, hit]
  have hupd : UpdateClusterConfig b cc =
      (⟨insertKey b.items clusterConfigKey
          { key := clusterConfigKey,
            value := marshalClusterConfig
              { cur with
                  sessionRecording := cc'.sessionRecording,
                  resourceID := it.id, expires := it.expires },
            expires := it.expires, id := b.nextId },
        b.nextId + 1⟩, .ok ()) := by
    rw [UpdateClusterConfig, hprep]
    exact hswap
  rw [hupd]
  exact ⟨rfl, lookup_insert_self _ _ _⟩

/-- Closed instance of the amended C2 at the fixture backend. -/
theorem updateClusterConfig_merges_witness :
    lookupKey bCfg.items clusterConfigKey = some itemStored ∧
    (UpdateClusterConfig bCfg ccEx).2 = .ok () :=
  ⟨rfl,
   (updateClusterConfig_merges_into_current bCfg ccEx ccEx ccStored
     itemStored rfl rfl rfl).1⟩

/-- C2 counterexample: at the fixture state the stored payload carries
resource ID 0 while the backend record has revision 5; the successful
update rewrites the payload's resource-ID field to 5, so a field other
than session recording is not byte-for-byte identical to its pre-update
value. -/
theorem updateClusterConfig_frame_counterexample :
    (UpdateClusterConfig bCfg ccEx).2 = .ok () ∧
    lookupKey bCfg.items clusterConfigKey = some itemStored ∧
    itemStored.value = .clusterConfigV ccStored ∧
    lookupKey (UpdateClusterConfig bCfg ccEx).1.items clusterConfigKey =
      some { key := clusterConfigKey,
             value := .clusterConfigV
               { sessionRecording := "proxy", clusterID := "cid",
                 audit := "a", resourceID := 5, expires := 0 },
             expires := 0, id := 6 } ∧
    (5 : Nat) ≠ ccStored.resourceID :=
  ⟨rfl, rfl, rfl, rfl, by decide⟩

theorem getClusterConfig_item_key (b : Backend) (opts : List MarshalOption)
    (ei : Item) (cur : ClusterConfig)
    (h : getClusterConfig b opts = .ok (ei, cur)) :
    ei.key = clusterConfigKey := by
  unfold getClusterConfig Backend.get at h
  cases hl : lookupKey b.items clusterConfigKey with
  | none => rw [hl] at h; simp [Err.isNotFound] at h
  | some it0 =>
      rw [hl] at h
      cases hu : unmarshalClusterConfig it0.value
          (addOptions opts
            [.withResourceID it0.id, .withExpires it0.expires]) with
      | error e => simp [hu] at h
      | ok cc0 =>
          simp only [] at h
          rw [show ({ it0 with key := clusterConfigKey } : Item).id = it0.id
                from rfl,
              show ({ it0 with key := clusterConfigKey } : Item).expires =
                it0.expires from rfl,
              show ({ it0 with key := clusterConfigKey } : Item).value =
                it0.value from rfl] at h
          rw [hu] at h
          simp at h
          rw [← h.1]

theorem prepare_reads_clusterConfigKey (b : Backend) (cc : ClusterConfig)
    (ex up : Item)
    (h : updateClusterConfigPrepare b cc = .ok (ex, up)) :
    ex.key = clusterConfigKey := by
  unfold updateClusterConfigPrepare at h
  cases hc : cc.checkAndSetDefaults with
  | error e => simp [hc] at h
  | ok cc' =>
      rw [hc] at h
      cases hg : getClusterConfig b [] with
      | error e => simp [hg] at h
      | ok pr =>
          obtain ⟨ei, cur⟩ := pr
          rw [hg] at h
          simp at h
          rw [← h.1]
          exact getClusterConfig_item_key b [] ei cur hg

/-- C3: when another actor's put advances the record's revision between
`UpdateClusterConfig`'s read (which saw the item at revision `ex.id`) and
its compare-and-swap, the swap phase fails with the distinct compare-failed
try-again error, performs no retry, and leaves the backend holding the
concurrent actor's write, not the failed caller's intended value. -/
theorem updateClusterConfig_concurrent_loses (b0 : Backend)
    (cc : ClusterConfig) (ex up it' : Item)
    (hprep : updateClusterConfigPrepare b0 cc = .ok (ex, up))
    (hkey : it'.key = clusterConfigKey)
    (hfresh : ex.id < b0.nextId) :
    updateClusterConfigSwap (b0.put it').1 ex up =
      ((b0.put it').1,
       .error (.compareFailed
         "cluster configuration has been updated by another client, try again")) ∧
    lookupKey (b0.put it').1.items clusterConfigKey =
      some { it' with id := b0.nextId } := by
  have hexkey : ex.key = clusterConfigKey :=
    prepare_reads_clusterConfigKey b0 cc ex up hprep
  have hitems : (b0.put it').1.items =
      insertKey b0.items clusterConfigKey { it' with id := b0.nextId } := by
    rw [show (b0.put it').1.items =
          insertKey b0.items it'.key { it' with id := b0.nextId } from rfl,
        hkey]
  have hlook : lookupKey (b0.put it').1.items clusterConfigKey =
      some { it' with id := b0.nextId } := by
    rw [hitems]
    exact lookup_insert_self _ _ _
  have hne : ({ it' with id := b0.nextId } : Item).id ≠ ex.id := by
    simp only []
    exact fun hh => absurd hh.symm (Nat.ne_of_lt hfresh)
  refine ⟨?_, hlook⟩
  rw [updateClusterConfigSwap, Backend.compareAndSwap]
  rw [hexkey, hlook]
  simp [hne, Err.isCompareFailed]

/-- Closed instance of C3: at the fixture state, a concurrent put between
read and swap makes the swap fail with the try-again error. -/
theorem updateClusterConfig_concurrent_witness :
    itemStored.id < bCfg.nextId ∧
    updateClusterConfigSwap (bCfg.put itemConc).1 itemStored upConc =
      ((bCfg.put itemConc).1,
       .error (.compareFailed
         "cluster configuration has been updated by another client, try again")) :=
  ⟨by decide,
   (updateClusterConfig_concurrent_loses bCfg ccEx itemStored upConc itemConc
     rfl rfl (by decide)).1⟩

theorem atomicAt_id (b : Backend) (r : Except Err Unit) (k0 : Key) :
    atomicAt b b r k0 :=
  ⟨fun _ => rfl, fun _ _ => rfl⟩

theorem atomicAt_put (b : Backend) (it : Item) :
    atomicAt b (b.put it).1 (.ok ()) it.key := by
  refine ⟨fun h => ?_, fun k hk => ?_⟩
  · obtain ⟨e, he⟩ := h
    exact Except.noConfusion he
  · exact lookup_insert_ne _ _ _ _ hk

theorem atomicAt_swap (b : Backend) (ex up : Item)
    (hexkey : ex.key = clusterConfigKey) :
    atomicAt b (updateClusterConfigSwap b ex up).1
      (updateClusterConfigSwap b ex up).2 clusterConfigKey := by
  unfold updateClusterConfigSwap Backend.compareAndSwap
  cases hl : lookupKey b.items ex.key with
  | none => exact atomicAt_id b _ _
  | some cur0 =>
      by_cases hid : cur0.id = ex.id
      · simp only [hid, if_true]
        refine ⟨fun h => ?_, fun k hk => ?_⟩
        · obtain ⟨e, he⟩ := h
          exact Except.noConfusion he
        · have hk' : k ≠ ex.key := by rw [hexkey]; exact hk
          exact lookup_insert_ne _ _ _ _ hk'
      · simp only [hid, if_false]
        exact atomicAt_id b _ _

theorem atomicAt_setClusterName (b : Backend) (c : ClusterName) :
    atomicAt b (SetClusterName b c).1 (SetClusterName b c).2
      clusterNameKey := by
  cases hl : lookupKey b.items clusterNameKey with
  | none =>
      rw [setClusterName_absent b c hl]
      refine ⟨fun h => ?_, fun k hk => ?_⟩
      · obtain ⟨e, he⟩ := h
        exact Except.noConfusion he
      · exact lookup_insert_ne _ _ _ _ hk
  | some it =>
      rw [setClusterName_present b c it hl]
      exact atomicAt_id b _ _

theorem atomicAt_update (b : Backend) (cc : ClusterConfig) :
    atomicAt b (UpdateClusterConfig b cc).1 (UpdateClusterConfig b cc).2
      clusterConfigKey := by
  cases hp : updateClusterConfigPrepare b cc with
  | error e =>
      have hred : UpdateClusterConfig b cc = (b, .error e) := by
        rw [UpdateClusterConfig, hp]
      rw [hred]
      exact atomicAt_id b _ _
  | ok pr =>
      obtain ⟨ex, up⟩ := pr
      have hred : UpdateClusterConfig b cc = updateClusterConfigSwap b ex up := by
        rw [UpdateClusterConfig, hp]
      rw [hred]
      exact atomicAt_swap b ex up (prepare_reads_clusterConfigKey b cc ex up hp)

theorem atomicAt_deleteAt (b : Backend) (k0 : Key) :
    atomicAt b (b.delete k0).1 (b.delete k0).2 k0 := by
  unfold Backend.delete
  cases hl : lookupKey b.items k0 with
  | none => exact atomicAt_id b _ _
  | some it =>
      refine ⟨fun h => ?_, fun k hk => ?_⟩
      · obtain ⟨e, he⟩ := h
        exact Except.noConfusion he
      · exact lookup_remove_ne _ _ _ hk

theorem atomicAt_deleteClusterName (b : Backend) :
    atomicAt b (DeleteClusterName b).1 (DeleteClusterName b).2
      clusterNameKey := by
  cases hl : lookupKey b.items clusterNameKey with
  | none =>
      have hred : DeleteClusterName b =
          (b, .error (.notFound "cluster configuration not found")) := by
        simp [DeleteClusterName, Backend.delete, hl, Err.isNotFound]
      rw [hred]
      exact atomicAt_id b _ _
  | some it =>
      have hred : DeleteClusterName b =
          (⟨removeKey b.items clusterNameKey, b.nextId⟩, .ok ()) := by
        simp [DeleteClusterName, Backend.delete, hl]
      rw [hred]
      refine ⟨fun hh => ?_, fun k hk => ?_⟩
      · obtain ⟨e, he⟩ := hh
        exact Except.noConfusion he
      · exact lookup_remove_ne _ _ _ hk

theorem atomicAt_deleteStaticTokens (b : Backend) :
    atomicAt b (DeleteStaticTokens b).1 (DeleteStaticTokens b).2
      staticTokensKey := by
  cases hl : lookupKey b.items staticTokensKey with
  | none =>
      have hred : DeleteStaticTokens b =
          (b, .error (.notFound "static tokens are not found")) := by
        simp [DeleteStaticTokens, Backend.delete, hl, Err.isNotFound]
      rw [hred]
      exact atomicAt_id b _ _
  | some it =>
      have hred : DeleteStaticTokens b =
          (⟨removeKey b.items staticTokensKey, b.nextId⟩, .ok ()) := by
        simp [DeleteStaticTokens, Backend.delete, hl]
      rw [hred]
      refine ⟨fun hh => ?_, fun k hk => ?_⟩
      · obtain ⟨e, he⟩ := hh
        exact Except.noConfusion he
      · exact lookup_remove_ne _ _ _ hk

theorem atomicAt_deleteClusterConfig (b : Backend) :
    atomicAt b (DeleteClusterConfig b).1 (DeleteClusterConfig b).2
      clusterConfigKey := by
  cases hl : lookupKey b.items clusterConfigKey with
  | none =>
      have hred : DeleteClusterConfig b =
          (b, .error (.notFound "cluster configuration not found")) := by
        simp [DeleteClusterConfig, Backend.delete, hl, Err.isNotFound]
      rw [hred]
      exact atomicAt_id b _ _
  | some it =>
      have hred : DeleteClusterConfig b =
          (⟨removeKey b.items clusterConfigKey, b.nextId⟩, .ok ()) := by
        simp [DeleteClusterConfig, Backend.delete, hl]
      rw [hred]
      refine ⟨fun hh => ?_, fun k hk => ?_⟩
      · obtain ⟨e, he⟩ := hh
        exact Except.noConfusion he
      · exact lookup_remove_ne _ _ _ hk

/-- C7: every state-changing operation of the store is atomic at its own
single key: when it returns an error the backend state is exactly what it
was before the call, and in every case no key other than the operation's
own fixed key is touched — there is never a partial state change. (The
Get operations return no state and change nothing.) -/
theorem store_ops_atomic (b : Backend) (c : ClusterName) (t : StaticTokens)
    (p : AuthPreference) (g cc : ClusterConfig) :
    atomicAt b (SetClusterName b c).1 (SetClusterName b c).2 clusterNameKey ∧
    atomicAt b (UpsertClusterName b c).1 (UpsertClusterName b c).2
      clusterNameKey ∧
    atomicAt b (SetStaticTokens b t).1 (SetStaticTokens b t).2
      staticTokensKey ∧
    atomicAt b (SetAuthPreference b p).1 (SetAuthPreference b p).2
      authPrefKey ∧
    atomicAt b (SetClusterConfig b g).1 (SetClusterConfig b g).2
      clusterConfigKey ∧
    atomicAt b (UpdateClusterConfig b cc).1 (UpdateClusterConfig b cc).2
      clusterConfigKey ∧
    atomicAt b (DeleteClusterName b).1 (DeleteClusterName b).2
      clusterNameKey ∧
    atomicAt b (DeleteStaticTokens b).1 (DeleteStaticTokens b).2
      staticTokensKey ∧
    atomicAt b (DeleteClusterConfig b).1 (DeleteClusterConfig b).2
      clusterConfigKey := by
  refine ⟨atomicAt_setClusterName b c, ?_, ?_, ?_, ?_, atomicAt_update b cc,
    atomicAt_deleteClusterName b, atomicAt_deleteStaticTokens b,
    atomicAt_deleteClusterConfig b⟩
  · exact atomicAt_put b
      { key := clusterNameKey, value := marshalClusterName c,
        expires := c.expires, id := c.resourceID }
  · exact atomicAt_put b
      { key := staticTokensKey, value := marshalStaticTokens t,
        expires := t.expires, id := t.resourceID }
  · exact atomicAt_put b
      { key := authPrefKey, value := marshalAuthPreference p,
        expires := 0, id := p.resourceID }
  · exact atomicAt_put b
      { key := clusterConfigKey, value := marshalClusterConfig g,
        expires := 0, id := g.resourceID }

/-- Closed instance of C7: a failing `SetClusterName` against the
populated fixture backend leaves the state unchanged. -/
theorem store_ops_atomic_witness : (SetClusterName bOne cnEx2).1 = bOne :=
  (store_ops_atomic bOne cnEx2 stEx apEx ccEx ccEx).1.1
    ⟨Err.alreadyExists "already exists", rfl⟩

/-- C8: `GetClusterConfig` ignores its caller-supplied marshal options:
for every backend state and option list it returns exactly the result of
the call with no options. -/
theorem getClusterConfig_ignores_options (b : Backend)
    (opts : List MarshalOption) :
    GetClusterConfig b opts = GetClusterConfig b [] := rfl

theorem fixedAlgo_ne (s : SSHSigner) (a : String) :
    SSHSigner.fixedAlgo s a ≠ s := by
  intro h
  have h2 : sizeOf (SSHSigner.fixedAlgo s a) = sizeOf s := congrArg sizeOf h
  simp at h2
  omega

/-- C9: `AlgSigner` returns the input signer unchanged exactly when the
algorithm is the empty string, or the signer's public-key type is neither
the RSA key algorithm nor the RSA certificate algorithm, or the signer
does not implement `ssh.AlgorithmSigner`; in every other case it returns
the `fixedAlgorithmSigner` wrapper around the input, which is a different
signer. -/
theorem algSigner_identity (s : SSHSigner) (alg : String) :
    (alg = "" ∨
       (pubKeyType s ≠ keyAlgoRSA ∧ pubKeyType s ≠ certAlgoRSAv01) ∨
       isAlgorithmSigner s = false →
      AlgSigner s alg = s) ∧
    (alg ≠ "" →
      (pubKeyType s = keyAlgoRSA ∨ pubKeyType s = certAlgoRSAv01) →
      isAlgorithmSigner s = true →
      AlgSigner s alg = SSHSigner.fixedAlgo s alg ∧ AlgSigner s alg ≠ s) := by
  constructor
  · rintro (h | h | h)
    · simp [AlgSigner, h]
    · simp [AlgSigner, h]
    · simp [AlgSigner, h]
  · intro h1 h2 h3
    have hcond : ¬(pubKeyType s ≠ keyAlgoRSA ∧ pubKeyType s ≠ certAlgoRSAv01) := by
      rcases h2 with h2 | h2 <;> simp [h2]
    have heq : AlgSigner s alg = SSHSigner.fixedAlgo s alg := by
      simp [AlgSigner, h1, hcond, h3]
    refine ⟨heq, ?_⟩
    rw [heq]
    exact fixedAlgo_ne s alg

/-- Closed instance of C9: a non-RSA signer passes through unchanged, and
an RSA algorithm signer gets wrapped. -/
theorem algSigner_identity_witness :
    AlgSigner sBasicEx "rsa-sha2-256" = sBasicEx ∧
    AlgSigner sAlgoEx "rsa-sha2-256" =
      SSHSigner.fixedAlgo sAlgoEx "rsa-sha2-256" := by
  constructor
  · exact (algSigner_identity sBasicEx "rsa-sha2-256").1
      (Or.inr (Or.inl ⟨by decide, by decide⟩))
  · exact ((algSigner_identity sAlgoEx "rsa-sha2-256").2 (by decide)
      (Or.inl rfl) rfl).1

/-- C10: for a signer wrapped by `AlgSigner` with fixed algorithm `A`
(i.e. a `fixedAlgorithmSigner` whose underlying signer has a
`SignWithAlgorithm` method `g`): `Sign` delegates to the underlying
signer's `SignWithAlgorithm` with algorithm `A`, and `SignWithAlgorithm`
substitutes `A` for an empty caller-supplied algorithm but passes a
non-empty one through unchanged. -/
theorem fixedAlgorithmSigner_delegates (base : SSHSigner) (A : String)
    (g : Nat → List Nat → String → Except String Signature)
    (hg : signWith? base = some g) :
    (∀ r d, signerSign (SSHSigner.fixedAlgo base A) r d = g r d A) ∧
    (∀ r d, signWithAlgorithm (SSHSigner.fixedAlgo base A) r d "" = g r d A) ∧
    (∀ r d a, a ≠ "" →
      signWithAlgorithm (SSHSigner.fixedAlgo base A) r d a = g r d a) := by
  refine ⟨fun r d => ?_, fun r d => ?_, fun r d a ha => ?_⟩
  · simp [signerSign, hg]
  · simp [signWithAlgorithm, signWith?, hg]
  · simp [signWithAlgorithm, signWith?, hg, ha]

/-- Closed instance of C10 at a concrete algorithm signer. -/
theorem fixedAlgorithmSigner_delegates_witness :
    signWith? sAlgoEx = some signWithEx ∧
    signerSign (SSHSigner.fixedAlgo sAlgoEx "rsa-sha2-512") 0 [] =
      signWithEx 0 [] "rsa-sha2-512" :=
  ⟨rfl,
   (fixedAlgorithmSigner_delegates sAlgoEx "rsa-sha2-512" signWithEx rfl).1
     0 []⟩

end Teleport
